import Mathlib

/-!
FastNoise: enumerations, EnumToString and the kernel parameter blocks.

A verification development over `fastnoise/private/technique.h`.

The header declares three `enum class ... : int` enumerations, one
`EnumToString` overload for each of them, and the three constant-buffer
structures `Struct__InitCB`, `Struct__LossCB` and `Struct__SwapCB` the
Initialise, CalculateLoss and Swap compute shaders are fed with.

Conventions of the embedding:

* `int` and `unsigned int` values are `Int` and `Nat`; none of the properties
  below performs arithmetic that could wrap.
* An `enum class E : int` object can hold any `int`, so the `EnumToString`
  overloads take the underlying `Int`; the enumerators themselves form an
  inductive type whose `toInt` is the `(int)` cast.
* `const char*` results are `Option String`, `nullptr` being `none`.
* `std::array<T, N>` is a `List T` of length `N`.
-/

namespace fastnoise

/-! ## Enumerations (technique.h, lines 26 to 56) -/

/-- The enumerators of `enum class FilterType : int`, in declaration order. -/
inductive FilterType where
  | Box
  | Gaussian
  | Binomial
  | Exponential
  | WeightedExponential
  deriving DecidableEq, Repr, Fintype

/-- The enumerators of `enum class SampleSpace : int`, in declaration order. -/
inductive SampleSpace where
  | Real
  | Circle
  | Vector2
  | Vector3
  | Vector4
  | Sphere
  deriving DecidableEq, Repr, Fintype

/-- The enumerators of `enum class SampleDistribution : int`, in declaration order. -/
inductive SampleDistribution where
  | Uniform1D
  | Gauss1D
  | Tent1D
  | Uniform2D
  | Uniform3D
  | Uniform4D
  | UniformSphere
  | UniformHemisphere
  | CosineHemisphere
  deriving DecidableEq, Repr, Fintype

/-- The cast `(int)e` of a `FilterType` enumerator: no enumerator has an initialiser, so the
first one is 0 and each next one is the previous plus one. -/
def FilterType.toInt : FilterType → Int
  | .Box => 0
  | .Gaussian => 1
  | .Binomial => 2
  | .Exponential => 3
  | .WeightedExponential => 4

/-- The cast `(int)e` of a `SampleSpace` enumerator. -/
def SampleSpace.toInt : SampleSpace → Int
  | .Real => 0
  | .Circle => 1
  | .Vector2 => 2
  | .Vector3 => 3
  | .Vector4 => 4
  | .Sphere => 5

/-- The cast `(int)e` of a `SampleDistribution` enumerator. -/
def SampleDistribution.toInt : SampleDistribution → Int
  | .Uniform1D => 0
  | .Gauss1D => 1
  | .Tent1D => 2
  | .Uniform2D => 3
  | .Uniform3D => 4
  | .Uniform4D => 5
  | .UniformSphere => 6
  | .UniformHemisphere => 7
  | .CosineHemisphere => 8

/-- The identifier each `FilterType` enumerator is declared with (lines 28 to 32). -/
def FilterType.identifier : FilterType → String
  | .Box => "Box"
  | .Gaussian => "Gaussian"
  | .Binomial => "Binomial"
  | .Exponential => "Exponential"
  | .WeightedExponential => "WeightedExponential"

/-- The identifier each `SampleSpace` enumerator is declared with (lines 37 to 42). -/
def SampleSpace.identifier : SampleSpace → String
  | .Real => "Real"
  | .Circle => "Circle"
  | .Vector2 => "Vector2"
  | .Vector3 => "Vector3"
  | .Vector4 => "Vector4"
  | .Sphere => "Sphere"

/-- The identifier each `SampleDistribution` enumerator is declared with (lines 47 to 55). -/
def SampleDistribution.identifier : SampleDistribution → String
  | .Uniform1D => "Uniform1D"
  | .Gauss1D => "Gauss1D"
  | .Tent1D => "Tent1D"
  | .Uniform2D => "Uniform2D"
  | .Uniform3D => "Uniform3D"
  | .Uniform4D => "Uniform4D"
  | .UniformSphere => "UniformSphere"
  | .UniformHemisphere => "UniformHemisphere"
  | .CosineHemisphere => "CosineHemisphere"

/-! ## EnumToString (technique.h, lines 58 to 100)

Each overload is a `switch` over the value with one `case` per enumerator and
`default: return nullptr;`. Every `case` returns `displayString ? "X" : "X"`;
the conditional is kept as it is written. -/

/-- The overload `EnumToString(FilterType value, bool displayString)`. -/
def FilterType.EnumToString (value : Int) (displayString : Bool) : Option String :=
  if value = FilterType.Box.toInt then
    some (if displayString then "Box" else "Box")
  else if value = FilterType.Gaussian.toInt then
    some (if displayString then "Gaussian" else "Gaussian")
  else if value = FilterType.Binomial.toInt then
    some (if displayString then "Binomial" else "Binomial")
  else if value = FilterType.Exponential.toInt then
    some (if displayString then "Exponential" else "Exponential")
  else if value = FilterType.WeightedExponential.toInt then
    some (if displayString then "WeightedExponential" else "WeightedExponential")
  else none

/-- The overload `EnumToString(SampleSpace value, bool displayString)`. -/
def SampleSpace.EnumToString (value : Int) (displayString : Bool) : Option String :=
  if value = SampleSpace.Real.toInt then
    some (if displayString then "Real" else "Real")
  else if value = SampleSpace.Circle.toInt then
    some (if displayString then "Circle" else "Circle")
  else if value = SampleSpace.Vector2.toInt then
    some (if displayString then "Vector2" else "Vector2")
  else if value = SampleSpace.Vector3.toInt then
    some (if displayString then "Vector3" else "Vector3")
  else if value = SampleSpace.Vector4.toInt then
    some (if displayString then "Vector4" else "Vector4")
  else if value = SampleSpace.Sphere.toInt then
    some (if displayString then "Sphere" else "Sphere")
  else none

/-- The overload `EnumToString(SampleDistribution value, bool displayString)`. -/
def SampleDistribution.EnumToString (value : Int) (displayString : Bool) : Option String :=
  if value = SampleDistribution.Uniform1D.toInt then
    some (if displayString then "Uniform1D" else "Uniform1D")
  else if value = SampleDistribution.Gauss1D.toInt then
    some (if displayString then "Gauss1D" else "Gauss1D")
  else if value = SampleDistribution.Tent1D.toInt then
    some (if displayString then "Tent1D" else "Tent1D")
  else if value = SampleDistribution.Uniform2D.toInt then
    some (if displayString then "Uniform2D" else "Uniform2D")
  else if value = SampleDistribution.Uniform3D.toInt then
    some (if displayString then "Uniform3D" else "Uniform3D")
  else if value = SampleDistribution.Uniform4D.toInt then
    some (if displayString then "Uniform4D" else "Uniform4D")
  else if value = SampleDistribution.UniformSphere.toInt then
    some (if displayString then "UniformSphere" else "UniformSphere")
  else if value = SampleDistribution.UniformHemisphere.toInt then
    some (if displayString then "UniformHemisphere" else "UniformHemisphere")
  else if value = SampleDistribution.CosineHemisphere.toInt then
    some (if displayString then "CosineHemisphere" else "CosineHemisphere")
  else none

/-- A call `EnumToString(value)` of the `FilterType` overload: the parameter is declared
`bool displayString = false`. -/
def FilterType.EnumToStringDefault (value : Int) : Option String :=
  FilterType.EnumToString value false

/-- A call `EnumToString(value)` of the `SampleSpace` overload. -/
def SampleSpace.EnumToStringDefault (value : Int) : Option String :=
  SampleSpace.EnumToString value false

/-- A call `EnumToString(value)` of the `SampleDistribution` overload. -/
def SampleDistribution.EnumToStringDefault (value : Int) : Option String :=
  SampleDistribution.EnumToString value false

/-! ## Parameter blocks (technique.h, lines 109 to 142)

The three constant-buffer structures nested in `ContextInternal`. A field's
default value is its default member initialiser. `float` fields are rationals
(`0.5` and `0.0f` are exact), `unsigned int separate = false` is the integer 0
and `float3 _padding0 = {}` is value-initialised to zeros. -/

/-- The structure `ContextInternal::Struct__InitCB`. -/
structure Struct__InitCB where
  key : List Nat := [0, 0, 0, 0]
  Iteration : Nat := 0
  scrambleBits : Nat := 0
  rngSeed : Nat := 1338
  sampleDistribution : Int := SampleDistribution.Uniform1D.toInt
  deriving DecidableEq, Repr

/-- The structure `ContextInternal::Struct__LossCB`. -/
structure Struct__LossCB where
  sampleSpace : Int := SampleSpace.Real.toInt
  separateWeight : ℚ := 1 / 2
  separate : Nat := 0
  _padding0 : ℚ := 0
  key : List Nat := [0, 0, 0, 0]
  scrambleBits : Nat := 0
  TextureSize : List Nat := [64, 64, 1]
  filterMin : List Int := [0, 0, 0]
  _padding1 : ℚ := 0
  filterMax : List Int := [0, 0, 0]
  _padding2 : ℚ := 0
  filterOffset : List Int := [0, 0, 0]
  deriving DecidableEq, Repr

/-- The structure `ContextInternal::Struct__SwapCB`. -/
structure Struct__SwapCB where
  Iteration : Nat := 0
  _padding0 : List ℚ := [0, 0, 0]
  key : List Nat := [0, 0, 0, 0]
  scrambleBits : Nat := 0
  TextureSize : List Nat := [64, 64, 1]
  swapSuppression : Nat := 64
  deriving DecidableEq, Repr

/-- The member `Struct__InitCB constantBuffer__InitCB_cpu;` of `ContextInternal`:
default-constructed. -/
def constantBuffer__InitCB_cpu : Struct__InitCB := {}

/-- The member `Struct__LossCB constantBuffer__LossCB_cpu;` of `ContextInternal`:
default-constructed. -/
def constantBuffer__LossCB_cpu : Struct__LossCB := {}

/-- The member `Struct__SwapCB constantBuffer__SwapCB_cpu;` of `ContextInternal`:
default-constructed. -/
def constantBuffer__SwapCB_cpu : Struct__SwapCB := {}

/-! ## Field layout of the parameter blocks

Every field is a `uint`, `int`, `unsigned int` or `float` (one 4-byte component)
or a `std::array` of 2, 3 or 4 of them (lines 13 to 24). -/

/-- A declared field: its name and how many 4-byte components it has. -/
structure FieldDecl where
  name : String
  components : Nat
  deriving DecidableEq, Repr

/-- Size in bytes of a field. -/
def FieldDecl.size (f : FieldDecl) : Nat := 4 * f.components

/-- The fields of `Struct__InitCB` in declaration order (lines 111 to 115). -/
def Struct__InitCB.fields : List FieldDecl :=
  [⟨"key", 4⟩, ⟨"Iteration", 1⟩, ⟨"scrambleBits", 1⟩, ⟨"rngSeed", 1⟩,
   ⟨"sampleDistribution", 1⟩]

/-- The fields of `Struct__LossCB` in declaration order (lines 120 to 131). -/
def Struct__LossCB.fields : List FieldDecl :=
  [⟨"sampleSpace", 1⟩, ⟨"separateWeight", 1⟩, ⟨"separate", 1⟩, ⟨"_padding0", 1⟩,
   ⟨"key", 4⟩, ⟨"scrambleBits", 1⟩, ⟨"TextureSize", 3⟩, ⟨"filterMin", 3⟩,
   ⟨"_padding1", 1⟩, ⟨"filterMax", 3⟩, ⟨"_padding2", 1⟩, ⟨"filterOffset", 3⟩]

/-- The fields of `Struct__SwapCB` in declaration order (lines 136 to 141). -/
def Struct__SwapCB.fields : List FieldDecl :=
  [⟨"Iteration", 1⟩, ⟨"_padding0", 3⟩, ⟨"key", 4⟩, ⟨"scrambleBits", 1⟩,
   ⟨"TextureSize", 3⟩, ⟨"swapSuppression", 1⟩]

/-- Offsets of the fields laid out from `offset` on, in order and without gaps. -/
def sequentialLayout : List FieldDecl → Nat → List (FieldDecl × Nat)
  | [], _ => []
  | f :: fs, offset => (f, offset) :: sequentialLayout fs (offset + f.size)

/-- Total size in bytes of the gapless layout. -/
def sequentialSize (fs : List FieldDecl) : Nat := (fs.map FieldDecl.size).sum

/-- A field at `offset` lies within one 16-byte register: its first and its last byte have
the same register number. -/
def withinRegister (f : FieldDecl) (offset : Nat) : Bool :=
  offset / 16 == (offset + f.size - 1) / 16

/-- Constant-buffer packing into 16-byte registers: a field goes to the next free offset
unless it would straddle a register boundary there, in which case it starts at the next
register. The rule is not part of the header; it is the GPU-side convention the explicit
`_padding` fields are written for, and serves only as the other side of the comparison
in C8. -/
def registerPackedLayout : List FieldDecl → Nat → List (FieldDecl × Nat)
  | [], _ => []
  | f :: fs, offset =>
    let start := if withinRegister f offset then offset else (offset / 16 + 1) * 16
    (f, start) :: registerPackedLayout fs (start + f.size)

/-! ## Value Grid and Swap

The header only declares the pipeline objects of the compute shaders
(`computeShader_Initialise_pso`, `computeShader_CalculateLoss_pso`,
`computeShader_Swap_pso`) and the blocks they read; the shaders, the value texture
and the loop that dispatches them are not part of it. What follows is the Swap
pass as sections 4.3 and 5 of the specification word it, with the arithmetic the
specification leaves open (the keyed generator, the suppression distance, the
loss) taken as parameters. -/

/-- Modelled from the spec: the extents `(width, height, depth)` of the Value Grid (section 3,
"a dense 3-dimensional array of cells"); the value texture itself is missing from the header. -/
structure GridExtent where
  width : Nat
  height : Nat
  depth : Nat
  deriving DecidableEq, Repr

/-- Modelled from the spec: the number of cells of the grid, one for "every possible index
combination within the declared grid dimensions" (section 3). -/
def GridExtent.cellCount (e : GridExtent) : Nat := e.width * e.height * e.depth

/-- Modelled from the spec: a cell of the grid, by flat index (section 5 orders cells by
"flat index"); the texture addressing is missing from the header. -/
abbrev Cell (e : GridExtent) : Type := Fin e.cellCount

/-- Modelled from the spec: the Value Grid, one sample per cell (section 3). The sample type
`α` stands for the stored bits of a cell, whatever the sample space. -/
abbrev ValueGrid (e : GridExtent) (α : Type) : Type := Cell e → α

/-- Modelled from the spec: "the multiset of Value Grid contents" (section 8), the values of
all cells with multiplicity; the grid storage is missing from the header. -/
def ValueGrid.cellValues {e : GridExtent} {α : Type} (g : ValueGrid e α) : Multiset α :=
  (List.ofFn g : Multiset α)

/-- Modelled from the spec: the parts of the Swap shader, which is missing from the header,
that section 4.3 names without defining them. `proposes` selects the cells that make a
proposal ("each cell `c`, or a parallel-dispatched subset"); `partner` is the candidate cell
derived from the keyed generator "seeded by (key, Iteration, c)"; `suppressed` is the
swap-suppression rule, a function of the block (`swapSuppression`), of the swaps committed
earlier in the pass and of the candidate; `improves` says whether exchanging the two values
"strictly reduces combined local loss", evaluated on the grid as it stood at the start of the
pass. -/
structure SwapShader (e : GridExtent) (α : Type) where
  proposes : Struct__SwapCB → Cell e → Bool
  partner : Struct__SwapCB → Cell e → Cell e
  suppressed : Struct__SwapCB → List (Cell e × Cell e) → Cell e → Bool
  improves : Struct__SwapCB → ValueGrid e α → Cell e → Cell e → Bool

/-- Modelled from the spec: whether cell `x` is one of the two cells of a swap committed
earlier in the pass; the Swap shader is missing from the header. -/
def takesPart {e : GridExtent} (committed : List (Cell e × Cell e)) (x : Cell e) : Bool :=
  committed.any (fun p => decide (p.1 = x) || decide (p.2 = x))

/-- Modelled from the spec: committing the swap of `c` and `c'`; the Swap shader is missing
from the header. "Both Value Grid cells are updated in place" (section 4.3), and the values
written are `value(c)` and `value(c')` "as they stood at the start of the pass" (section 5):
`c` receives `start c'` and `c'` receives `start c`. -/
def commitSwap {e : GridExtent} {α : Type} (start g : ValueGrid e α) (c c' : Cell e) :
    ValueGrid e α :=
  fun i => if i = c then start c' else if i = c' then start c else g i

/-- Modelled from the spec: the state of a Swap pass in flight, the grid and the swaps
committed so far; the Swap shader is missing from the header. -/
structure SwapState (e : GridExtent) (α : Type) where
  grid : ValueGrid e α
  committed : List (Cell e × Cell e)

/-- Modelled from the spec: the proposal of cell `c` in a Swap pass that started from `start`
(sections 4.3 and 5); the Swap shader is missing from the header. The proposal is dropped
when `c` or its candidate already takes part in a swap committed in this pass (section 5: no
two proposals on the same cell, "guarded against double-application"; of two cells proposing
each other only the lower-indexed one commits, since it applies first), when the candidate
is suppressed, or when the exchange does not strictly reduce the loss. Otherwise the swap is
committed with the values of the start of the pass and recorded. -/
def SwapShader.proposal {e : GridExtent} {α : Type} (sh : SwapShader e α) (cb : Struct__SwapCB)
    (start : ValueGrid e α) (st : SwapState e α) (c : Cell e) : SwapState e α :=
  let c' := sh.partner cb c
  if takesPart st.committed c || takesPart st.committed c' then st
  else if sh.suppressed cb st.committed c' then st
  else if sh.improves cb start c c' then
    { grid := commitSwap start st.grid c c', committed := st.committed ++ [(c, c')] }
  else st

/-- Modelled from the spec: one Swap pass, which is missing from the header. The proposing
cells make their proposals; the proposals are applied one after the other, "lower flat index
applies first" (section 5, option (a)). -/
def SwapShader.pass {e : GridExtent} {α : Type} (sh : SwapShader e α) (cb : Struct__SwapCB)
    (start : ValueGrid e α) : ValueGrid e α :=
  (((List.finRange e.cellCount).filter (sh.proposes cb)).foldl (sh.proposal cb start)
    { grid := start, committed := [] }).grid

/-- Modelled from the spec: the Swap passes of the Iteration Driver, which is missing from the
header, one pass per parameter block of `blocks`, in order (section 4.4; the driver changes
`Iteration` between passes, so each pass has its own block). -/
def runSwapPasses {e : GridExtent} {α : Type} (sh : SwapShader e α)
    (blocks : List Struct__SwapCB) (g : ValueGrid e α) : ValueGrid e α :=
  blocks.foldl (fun grid cb => sh.pass cb grid) g

/-! ## Lemmas on the enumerations and EnumToString -/

/-- The values of the `FilterType` enumerators are exactly 0 to 4. -/
theorem FilterType_exists_toInt_iff (v : Int) :
    (∃ e : FilterType, e.toInt = v) ↔ 0 ≤ v ∧ v ≤ 4 := by
  constructor
  · rintro ⟨e, rfl⟩
    cases e <;> simp [FilterType.toInt]
  · rintro ⟨h0, hn⟩
    have : v = 0 ∨ v = 1 ∨ v = 2 ∨ v = 3 ∨ v = 4 := by omega
    rcases this with h | h | h | h | h
    · exact ⟨.Box, h.symm⟩
    · exact ⟨.Gaussian, h.symm⟩
    · exact ⟨.Binomial, h.symm⟩
    · exact ⟨.Exponential, h.symm⟩
    · exact ⟨.WeightedExponential, h.symm⟩

/-- Distinct `FilterType` enumerators have distinct values. -/
theorem FilterType_toInt_injective : Function.Injective FilterType.toInt := by
  intro a b h
  cases a <;> cases b <;> first | rfl | (exact absurd h (by decide))

/-- The `FilterType` overload returns a string exactly on the values 0 to 4. -/
theorem FilterType_EnumToString_isSome_iff (v : Int) (displayString : Bool) :
    (FilterType.EnumToString v displayString).isSome ↔ 0 ≤ v ∧ v ≤ 4 := by
  simp only [FilterType.EnumToString, FilterType.toInt, ite_self]
  split_ifs <;>
    first
      | (simp only [Option.isSome_some, true_iff]; omega)
      | (simp only [Option.isSome_none, Bool.false_eq_true, false_iff]; omega)

/-- Both branches of every conditional of the `FilterType` overload hold the same literal. -/
theorem FilterType_EnumToString_flag (v : Int) (d d' : Bool) :
    FilterType.EnumToString v d = FilterType.EnumToString v d' := by
  simp only [FilterType.EnumToString, ite_self]

/-- The `FilterType` overload, on an enumerator's value, returns its identifier. -/
theorem FilterType_EnumToString_toInt (e : FilterType) (displayString : Bool) :
    FilterType.EnumToString e.toInt displayString = some e.identifier := by
  cases e <;> cases displayString <;> rfl

/-- No two `FilterType` enumerators are declared with the same identifier. -/
theorem FilterType_identifier_injective : Function.Injective FilterType.identifier := by
  intro a b h
  cases a <;> cases b <;> first | rfl | (exact absurd h (by decide))

/-- The values of the `SampleSpace` enumerators are exactly 0 to 5. -/
theorem SampleSpace_exists_toInt_iff (v : Int) :
    (∃ e : SampleSpace, e.toInt = v) ↔ 0 ≤ v ∧ v ≤ 5 := by
  constructor
  · rintro ⟨e, rfl⟩
    cases e <;> simp [SampleSpace.toInt]
  · rintro ⟨h0, hn⟩
    have : v = 0 ∨ v = 1 ∨ v = 2 ∨ v = 3 ∨ v = 4 ∨ v = 5 := by omega
    rcases this with h | h | h | h | h | h
    · exact ⟨.Real, h.symm⟩
    · exact ⟨.Circle, h.symm⟩
    · exact ⟨.Vector2, h.symm⟩
    · exact ⟨.Vector3, h.symm⟩
    · exact ⟨.Vector4, h.symm⟩
    · exact ⟨.Sphere, h.symm⟩

/-- Distinct `SampleSpace` enumerators have distinct values. -/
theorem SampleSpace_toInt_injective : Function.Injective SampleSpace.toInt := by
  intro a b h
  cases a <;> cases b <;> first | rfl | (exact absurd h (by decide))

/-- The `SampleSpace` overload returns a string exactly on the values 0 to 5. -/
theorem SampleSpace_EnumToString_isSome_iff (v : Int) (displayString : Bool) :
    (SampleSpace.EnumToString v displayString).isSome ↔ 0 ≤ v ∧ v ≤ 5 := by
  simp only [SampleSpace.EnumToString, SampleSpace.toInt, ite_self]
  split_ifs <;>
    first
      | (simp only [Option.isSome_some, true_iff]; omega)
      | (simp only [Option.isSome_none, Bool.false_eq_true, false_iff]; omega)

/-- Both branches of every conditional of the `SampleSpace` overload hold the same literal. -/
theorem SampleSpace_EnumToString_flag (v : Int) (d d' : Bool) :
    SampleSpace.EnumToString v d = SampleSpace.EnumToString v d' := by
  simp only [SampleSpace.EnumToString, ite_self]

/-- The `SampleSpace` overload, on an enumerator's value, returns its identifier. -/
theorem SampleSpace_EnumToString_toInt (e : SampleSpace) (displayString : Bool) :
    SampleSpace.EnumToString e.toInt displayString = some e.identifier := by
  cases e <;> cases displayString <;> rfl

/-- No two `SampleSpace` enumerators are declared with the same identifier. -/
theorem SampleSpace_identifier_injective : Function.Injective SampleSpace.identifier := by
  intro a b h
  cases a <;> cases b <;> first | rfl | (exact absurd h (by decide))

/-- The values of the `SampleDistribution` enumerators are exactly 0 to 8. -/
theorem SampleDistribution_exists_toInt_iff (v : Int) :
    (∃ e : SampleDistribution, e.toInt = v) ↔ 0 ≤ v ∧ v ≤ 8 := by
  constructor
  · rintro ⟨e, rfl⟩
    cases e <;> simp [SampleDistribution.toInt]
  · rintro ⟨h0, hn⟩
    have : v = 0 ∨ v = 1 ∨ v = 2 ∨ v = 3 ∨ v = 4 ∨ v = 5 ∨ v = 6 ∨ v = 7 ∨ v = 8 := by omega
    rcases this with h | h | h | h | h | h | h | h | h
    · exact ⟨.Uniform1D, h.symm⟩
    · exact ⟨.Gauss1D, h.symm⟩
    · exact ⟨.Tent1D, h.symm⟩
    · exact ⟨.Uniform2D, h.symm⟩
    · exact ⟨.Uniform3D, h.symm⟩
    · exact ⟨.Uniform4D, h.symm⟩
    · exact ⟨.UniformSphere, h.symm⟩
    · exact ⟨.UniformHemisphere, h.symm⟩
    · exact ⟨.CosineHemisphere, h.symm⟩

/-- Distinct `SampleDistribution` enumerators have distinct values. -/
theorem SampleDistribution_toInt_injective : Function.Injective SampleDistribution.toInt := by
  intro a b h
  cases a <;> cases b <;> first | rfl | (exact absurd h (by decide))

/-- The `SampleDistribution` overload returns a string exactly on the values 0 to 8. -/
theorem SampleDistribution_EnumToString_isSome_iff (v : Int) (displayString : Bool) :
    (SampleDistribution.EnumToString v displayString).isSome ↔ 0 ≤ v ∧ v ≤ 8 := by
  simp only [SampleDistribution.EnumToString, SampleDistribution.toInt, ite_self]
  split_ifs <;>
    first
      | (simp only [Option.isSome_some, true_iff]; omega)
      | (simp only [Option.isSome_none, Bool.false_eq_true, false_iff]; omega)

/-- Both branches of every conditional of the `SampleDistribution` overload hold the same literal. -/
theorem SampleDistribution_EnumToString_flag (v : Int) (d d' : Bool) :
    SampleDistribution.EnumToString v d = SampleDistribution.EnumToString v d' := by
  simp only [SampleDistribution.EnumToString, ite_self]

/-- The `SampleDistribution` overload, on an enumerator's value, returns its identifier. -/
theorem SampleDistribution_EnumToString_toInt (e : SampleDistribution) (displayString : Bool) :
    SampleDistribution.EnumToString e.toInt displayString = some e.identifier := by
  cases e <;> cases displayString <;> rfl

/-- No two `SampleDistribution` enumerators are declared with the same identifier. -/
theorem SampleDistribution_identifier_injective : Function.Injective SampleDistribution.identifier := by
  intro a b h
  cases a <;> cases b <;> first | rfl | (exact absurd h (by decide))

/-! ## Lemmas on the Swap pass -/

/-- A cell takes part in no swap of the list extended by `(c, c')` exactly when it took part
in none before and is neither `c` nor `c'`. -/
theorem takesPart_append_eq_false {e : GridExtent} (committed : List (Cell e × Cell e))
    (c c' x : Cell e) :
    takesPart (committed ++ [(c, c')]) x = false ↔
      takesPart committed x = false ∧ c ≠ x ∧ c' ≠ x := by
  simp only [takesPart, List.any_append, List.any_cons, List.any_nil, Bool.or_false,
    Bool.or_eq_false_iff, decide_eq_false_iff_not, ne_eq]

/-- A proposal keeps the grid the start-of-pass grid read through a permutation that moves
only cells taking part in a committed swap. -/
theorem SwapShader.proposal_rearranges {e : GridExtent} {α : Type} (sh : SwapShader e α)
    (cb : Struct__SwapCB) (start : ValueGrid e α) (st : SwapState e α) (c : Cell e)
    (h : ∃ σ : Equiv.Perm (Cell e), st.grid = start ∘ σ ∧
      ∀ i, takesPart st.committed i = false → σ i = i) :
    ∃ σ : Equiv.Perm (Cell e), (sh.proposal cb start st c).grid = start ∘ σ ∧
      ∀ i, takesPart (sh.proposal cb start st c).committed i = false → σ i = i := by
  obtain ⟨σ, hσ, hfix⟩ := h
  simp only [SwapShader.proposal]
  split_ifs with hguard hsup himp
  · exact ⟨σ, hσ, hfix⟩
  · exact ⟨σ, hσ, hfix⟩
  · have hfree : takesPart st.committed c = false ∧
        takesPart st.committed (sh.partner cb c) = false := by
      simpa only [Bool.or_eq_true, not_or, Bool.not_eq_true] using hguard
    have hc : σ c = c := hfix c hfree.1
    have hc' : σ (sh.partner cb c) = sh.partner cb c := hfix _ hfree.2
    refine ⟨(Equiv.swap c (sh.partner cb c)).trans σ, ?_, ?_⟩
    · funext i
      simp only [commitSwap, Function.comp_apply, Equiv.trans_apply]
      by_cases hi : i = c
      · rw [if_pos hi, hi, Equiv.swap_apply_left, hc']
      · by_cases hi' : i = sh.partner cb c
        · rw [if_neg hi, if_pos hi', hi', Equiv.swap_apply_right, hc]
        · rw [if_neg hi, if_neg hi', Equiv.swap_apply_of_ne_of_ne hi hi', hσ]
          rfl
    · intro i hi
      obtain ⟨hold, hne, hne'⟩ := (takesPart_append_eq_false st.committed c _ i).mp hi
      rw [Equiv.trans_apply, Equiv.swap_apply_of_ne_of_ne (Ne.symm hne) (Ne.symm hne')]
      exact hfix i hold
  · exact ⟨σ, hσ, hfix⟩

/-- Any sequence of proposals keeps the grid a rearrangement of the start-of-pass grid. -/
theorem SwapShader.proposals_rearrange {e : GridExtent} {α : Type} (sh : SwapShader e α)
    (cb : Struct__SwapCB) (start : ValueGrid e α) (cells : List (Cell e))
    (st : SwapState e α)
    (h : ∃ σ : Equiv.Perm (Cell e), st.grid = start ∘ σ ∧
      ∀ i, takesPart st.committed i = false → σ i = i) :
    ∃ σ : Equiv.Perm (Cell e), (cells.foldl (sh.proposal cb start) st).grid = start ∘ σ := by
  induction cells generalizing st with
  | nil =>
    obtain ⟨σ, hσ, _⟩ := h
    exact ⟨σ, hσ⟩
  | cons c rest ih => exact ih _ (sh.proposal_rearranges cb start st c h)

/-- A Swap pass rearranges the grid it started from. -/
theorem SwapShader.pass_rearranges {e : GridExtent} {α : Type} (sh : SwapShader e α)
    (cb : Struct__SwapCB) (start : ValueGrid e α) :
    ∃ σ : Equiv.Perm (Cell e), sh.pass cb start = start ∘ σ :=
  sh.proposals_rearrange cb start _ _ ⟨Equiv.refl _, rfl, fun _ _ => rfl⟩

/-- Any number of Swap passes rearranges the grid they started from. -/
theorem runSwapPasses_rearranges {e : GridExtent} {α : Type} (sh : SwapShader e α)
    (blocks : List Struct__SwapCB) (g : ValueGrid e α) :
    ∃ σ : Equiv.Perm (Cell e), runSwapPasses sh blocks g = g ∘ σ := by
  induction blocks generalizing g with
  | nil => exact ⟨Equiv.refl _, rfl⟩
  | cons cb rest ih =>
    obtain ⟨σ, hσ⟩ := sh.pass_rearranges cb g
    obtain ⟨τ, hτ⟩ := ih (sh.pass cb g)
    refine ⟨τ.trans σ, ?_⟩
    have step : runSwapPasses sh (cb :: rest) g = runSwapPasses sh rest (sh.pass cb g) := rfl
    rw [step, hτ, hσ]
    rfl

/-- Reading a grid through a permutation of its cells leaves the multiset of values alone. -/
theorem ValueGrid.cellValues_comp_perm {e : GridExtent} {α : Type} (g : ValueGrid e α)
    (σ : Equiv.Perm (Cell e)) :
    ValueGrid.cellValues (g ∘ σ) = ValueGrid.cellValues g :=
  Multiset.coe_eq_coe.mpr (σ.ofFn_comp_perm g)

/-! ## Theorems: EnumToString -/

/-- C3: `EnumToString` is a lookup table. For every declared enumerator of `FilterType`,
`SampleSpace` and `SampleDistribution`, the matching overload, called with the enumerator's
value and either flag, returns the string spelled like the enumerator's identifier. -/
theorem EnumToString_returns_identifier :
    (∀ (e : FilterType) (displayString : Bool),
        FilterType.EnumToString e.toInt displayString = some e.identifier) ∧
    (∀ (e : SampleSpace) (displayString : Bool),
        SampleSpace.EnumToString e.toInt displayString = some e.identifier) ∧
    (∀ (e : SampleDistribution) (displayString : Bool),
        SampleDistribution.EnumToString e.toInt displayString = some e.identifier) :=
  ⟨FilterType_EnumToString_toInt, SampleSpace_EnumToString_toInt,
    SampleDistribution_EnumToString_toInt⟩

/-- C4: the enumerations are closed and numbered contiguously from 0 (five, six and nine
enumerators with values 0..4, 0..5 and 0..8, distinct enumerators having distinct values),
and for every integer `v` and either flag each `EnumToString` overload returns a name exactly
when `v` is the value of a declared enumerator and the null pointer for every other `v`. -/
theorem EnumToString_names_exactly_declared :
    (Fintype.card FilterType = 5 ∧ Function.Injective FilterType.toInt ∧
      ∀ v : Int, (∃ e : FilterType, e.toInt = v) ↔ 0 ≤ v ∧ v ≤ 4) ∧
    (Fintype.card SampleSpace = 6 ∧ Function.Injective SampleSpace.toInt ∧
      ∀ v : Int, (∃ e : SampleSpace, e.toInt = v) ↔ 0 ≤ v ∧ v ≤ 5) ∧
    (Fintype.card SampleDistribution = 9 ∧ Function.Injective SampleDistribution.toInt ∧
      ∀ v : Int, (∃ e : SampleDistribution, e.toInt = v) ↔ 0 ≤ v ∧ v ≤ 8) ∧
    (∀ (v : Int) (displayString : Bool),
      ((FilterType.EnumToString v displayString).isSome ↔ ∃ e : FilterType, e.toInt = v) ∧
      (FilterType.EnumToString v displayString = none ↔ ¬ ∃ e : FilterType, e.toInt = v)) ∧
    (∀ (v : Int) (displayString : Bool),
      ((SampleSpace.EnumToString v displayString).isSome ↔ ∃ e : SampleSpace, e.toInt = v) ∧
      (SampleSpace.EnumToString v displayString = none ↔ ¬ ∃ e : SampleSpace, e.toInt = v)) ∧
    (∀ (v : Int) (displayString : Bool),
      ((SampleDistribution.EnumToString v displayString).isSome ↔ ∃ e : SampleDistribution, e.toInt = v) ∧
      (SampleDistribution.EnumToString v displayString = none ↔ ¬ ∃ e : SampleDistribution, e.toInt = v)) := by
  refine ⟨⟨rfl, FilterType_toInt_injective, FilterType_exists_toInt_iff⟩,
    ⟨rfl, SampleSpace_toInt_injective, SampleSpace_exists_toInt_iff⟩,
    ⟨rfl, SampleDistribution_toInt_injective, SampleDistribution_exists_toInt_iff⟩, ?_, ?_, ?_⟩
  · intro v b
    have hsome : (FilterType.EnumToString v b).isSome ↔ ∃ e : FilterType, e.toInt = v := by
      rw [FilterType_exists_toInt_iff, FilterType_EnumToString_isSome_iff]
    exact ⟨hsome, by rw [← hsome, Option.not_isSome_iff_eq_none]⟩
  · intro v b
    have hsome : (SampleSpace.EnumToString v b).isSome ↔ ∃ e : SampleSpace, e.toInt = v := by
      rw [SampleSpace_exists_toInt_iff, SampleSpace_EnumToString_isSome_iff]
    exact ⟨hsome, by rw [← hsome, Option.not_isSome_iff_eq_none]⟩
  · intro v b
    have hsome : (SampleDistribution.EnumToString v b).isSome ↔ ∃ e : SampleDistribution, e.toInt = v := by
      rw [SampleDistribution_exists_toInt_iff, SampleDistribution_EnumToString_isSome_iff]
    exact ⟨hsome, by rw [← hsome, Option.not_isSome_iff_eq_none]⟩

/-- C9: `EnumToString` is injective on declared enumerators. Within each enumeration, two
enumerators whose names are equal (whatever the flags) are the same enumerator, and a
function from names back to values inverts `EnumToString` on the declared values. -/
theorem EnumToString_injective_on_enumerators :
    (∀ (a b : FilterType) (d d' : Bool),
      FilterType.EnumToString a.toInt d = FilterType.EnumToString b.toInt d' → a = b) ∧
    (∀ (a b : SampleSpace) (d d' : Bool),
      SampleSpace.EnumToString a.toInt d = SampleSpace.EnumToString b.toInt d' → a = b) ∧
    (∀ (a b : SampleDistribution) (d d' : Bool),
      SampleDistribution.EnumToString a.toInt d = SampleDistribution.EnumToString b.toInt d' →
        a = b) ∧
    (∃ inv : String → Option Int, ∀ (e : FilterType) (d : Bool),
      (FilterType.EnumToString e.toInt d).bind inv = some e.toInt) ∧
    (∃ inv : String → Option Int, ∀ (e : SampleSpace) (d : Bool),
      (SampleSpace.EnumToString e.toInt d).bind inv = some e.toInt) ∧
    (∃ inv : String → Option Int, ∀ (e : SampleDistribution) (d : Bool),
      (SampleDistribution.EnumToString e.toInt d).bind inv = some e.toInt) := by
  refine ⟨?_, ?_, ?_, ?_, ?_, ?_⟩
  · intro a b d d' h
    rw [FilterType_EnumToString_toInt, FilterType_EnumToString_toInt] at h
    exact FilterType_identifier_injective (Option.some.inj h)
  · intro a b d d' h
    rw [SampleSpace_EnumToString_toInt, SampleSpace_EnumToString_toInt] at h
    exact SampleSpace_identifier_injective (Option.some.inj h)
  · intro a b d d' h
    rw [SampleDistribution_EnumToString_toInt, SampleDistribution_EnumToString_toInt] at h
    exact SampleDistribution_identifier_injective (Option.some.inj h)
  · refine ⟨fun s => (([.Box, .Gaussian, .Binomial, .Exponential, .WeightedExponential] :
      List FilterType).find? (fun e => e.identifier == s)).map FilterType.toInt, ?_⟩
    intro e d
    rw [FilterType_EnumToString_toInt]
    cases e <;> decide
  · refine ⟨fun s => (([.Real, .Circle, .Vector2, .Vector3, .Vector4, .Sphere] :
      List SampleSpace).find? (fun e => e.identifier == s)).map SampleSpace.toInt, ?_⟩
    intro e d
    rw [SampleSpace_EnumToString_toInt]
    cases e <;> decide
  · refine ⟨fun s => (([.Uniform1D, .Gauss1D, .Tent1D, .Uniform2D, .Uniform3D, .Uniform4D, .UniformSphere, .UniformHemisphere, .CosineHemisphere] :
      List SampleDistribution).find? (fun e => e.identifier == s)).map SampleDistribution.toInt, ?_⟩
    intro e d
    rw [SampleDistribution_EnumToString_toInt]
    cases e <;> decide

/-- C9, at a concrete input: the name of `Gaussian` obtained with the flag set and with the
flag clear is the same string, and the theorem returns the one enumerator. -/
theorem EnumToString_injective_on_enumerators_witness :
    FilterType.EnumToString FilterType.Gaussian.toInt true =
        FilterType.EnumToString FilterType.Gaussian.toInt false ∧
      FilterType.Gaussian = FilterType.Gaussian :=
  ⟨by decide, EnumToString_injective_on_enumerators.1 .Gaussian .Gaussian true false (by decide)⟩

/-- C10: the `displayString` flag has no effect. For every overload and every integer `v`,
declared or not, `EnumToString(v, true)` equals `EnumToString(v, false)`, which is also the
result of the call `EnumToString(v)` with the flag left out. -/
theorem EnumToString_displayString_irrelevant :
    (∀ v : Int, FilterType.EnumToString v true = FilterType.EnumToString v false ∧
      FilterType.EnumToStringDefault v = FilterType.EnumToString v true) ∧
    (∀ v : Int, SampleSpace.EnumToString v true = SampleSpace.EnumToString v false ∧
      SampleSpace.EnumToStringDefault v = SampleSpace.EnumToString v true) ∧
    (∀ v : Int,
      SampleDistribution.EnumToString v true = SampleDistribution.EnumToString v false ∧
      SampleDistribution.EnumToStringDefault v = SampleDistribution.EnumToString v true) :=
  ⟨fun v => ⟨FilterType_EnumToString_flag v true false,
      FilterType_EnumToString_flag v false true⟩,
    fun v => ⟨SampleSpace_EnumToString_flag v true false,
      SampleSpace_EnumToString_flag v false true⟩,
    fun v => ⟨SampleDistribution_EnumToString_flag v true false,
      SampleDistribution_EnumToString_flag v false true⟩⟩

/-! ## Theorems: parameter blocks -/

/-- C5: the default-constructed blocks carry the values of the concrete scenario. The default
Init block has `key = (0,0,0,0)`, `rngSeed = 1338`, `Iteration = 0` and `sampleDistribution`
equal to the value of `Uniform1D`; the default Loss block has `sampleSpace` equal to the value
of `Real`; both stored integers are declared enumerators, named "Uniform1D" and "Real" by
`EnumToString` (with either flag). -/
theorem default_blocks_carry_scenario_values :
    constantBuffer__InitCB_cpu.key = [0, 0, 0, 0] ∧
    constantBuffer__InitCB_cpu.rngSeed = 1338 ∧
    constantBuffer__InitCB_cpu.Iteration = 0 ∧
    constantBuffer__InitCB_cpu.sampleDistribution = SampleDistribution.Uniform1D.toInt ∧
    constantBuffer__LossCB_cpu.sampleSpace = SampleSpace.Real.toInt ∧
    (∃ e : SampleDistribution, e.toInt = constantBuffer__InitCB_cpu.sampleDistribution) ∧
    (∃ e : SampleSpace, e.toInt = constantBuffer__LossCB_cpu.sampleSpace) ∧
    (∀ displayString : Bool,
      SampleDistribution.EnumToString constantBuffer__InitCB_cpu.sampleDistribution
        displayString = some "Uniform1D") ∧
    (∀ displayString : Bool,
      SampleSpace.EnumToString constantBuffer__LossCB_cpu.sampleSpace displayString =
        some "Real") := by
  refine ⟨rfl, rfl, rfl, rfl, rfl, ⟨.Uniform1D, rfl⟩, ⟨.Real, rfl⟩, ?_, ?_⟩
  · intro b
    exact SampleDistribution_EnumToString_toInt .Uniform1D b
  · intro b
    exact SampleSpace_EnumToString_toInt .Real b

/-- C6: the default Loss block describes a well-formed filter window. The four arrays have
three components, and on each axis `filterMin <= filterMax`, `filterMin = -filterMax`,
`filterOffset = 0`, and the extent `filterMax - filterMin + 1` does not exceed the default
`TextureSize`, which is (64, 64, 1). -/
theorem default_LossCB_filter_window_well_formed :
    constantBuffer__LossCB_cpu.filterMin.length = 3 ∧
    constantBuffer__LossCB_cpu.filterMax.length = 3 ∧
    constantBuffer__LossCB_cpu.filterOffset.length = 3 ∧
    constantBuffer__LossCB_cpu.TextureSize = [64, 64, 1] ∧
    ∀ axis : Fin 3,
      constantBuffer__LossCB_cpu.filterMin.getD axis 0 ≤
        constantBuffer__LossCB_cpu.filterMax.getD axis 0 ∧
      constantBuffer__LossCB_cpu.filterMin.getD axis 0 =
        -constantBuffer__LossCB_cpu.filterMax.getD axis 0 ∧
      constantBuffer__LossCB_cpu.filterOffset.getD axis 0 = 0 ∧
      constantBuffer__LossCB_cpu.filterMax.getD axis 0 -
          constantBuffer__LossCB_cpu.filterMin.getD axis 0 + 1 ≤
        (constantBuffer__LossCB_cpu.TextureSize.getD axis 0 : Int) := by
  decide

/-- C7: the default Loss and Swap blocks describe the same valid grid. Their `TextureSize`
fields are equal, namely (64, 64, 1); no axis is zero; the depth is 1. The fields shared by
name agree: `key = (0,0,0,0)` and `scrambleBits = 0` in the Init, Loss and Swap blocks,
`Iteration = 0` in the Init and Swap blocks. -/
theorem default_blocks_agree :
    constantBuffer__LossCB_cpu.TextureSize = constantBuffer__SwapCB_cpu.TextureSize ∧
    constantBuffer__SwapCB_cpu.TextureSize = [64, 64, 1] ∧
    (¬ ∃ extent ∈ constantBuffer__SwapCB_cpu.TextureSize, extent = 0) ∧
    constantBuffer__SwapCB_cpu.TextureSize.getD 2 0 = 1 ∧
    constantBuffer__InitCB_cpu.key = [0, 0, 0, 0] ∧
    constantBuffer__LossCB_cpu.key = constantBuffer__InitCB_cpu.key ∧
    constantBuffer__SwapCB_cpu.key = constantBuffer__InitCB_cpu.key ∧
    constantBuffer__InitCB_cpu.scrambleBits = 0 ∧
    constantBuffer__LossCB_cpu.scrambleBits = 0 ∧
    constantBuffer__SwapCB_cpu.scrambleBits = 0 ∧
    constantBuffer__InitCB_cpu.Iteration = 0 ∧
    constantBuffer__SwapCB_cpu.Iteration = 0 := by
  decide

/-- C8: constant-buffer packing. In each block, laid out in declaration order without gaps
(4 bytes per component), no field crosses a 16-byte boundary, every field named `key` has
four components and starts at a multiple of 16, the block sizes are 32, 92 and 52 bytes, and
the gapless layout is the 16-byte-register packed layout. -/
theorem parameter_blocks_register_packed :
    (∀ p ∈ sequentialLayout Struct__InitCB.fields 0,
      p.2 / 16 = (p.2 + p.1.size - 1) / 16 ∧
      (p.1.name = "key" → p.1.components = 4 ∧ p.2 % 16 = 0)) ∧
    (∀ p ∈ sequentialLayout Struct__LossCB.fields 0,
      p.2 / 16 = (p.2 + p.1.size - 1) / 16 ∧
      (p.1.name = "key" → p.1.components = 4 ∧ p.2 % 16 = 0)) ∧
    (∀ p ∈ sequentialLayout Struct__SwapCB.fields 0,
      p.2 / 16 = (p.2 + p.1.size - 1) / 16 ∧
      (p.1.name = "key" → p.1.components = 4 ∧ p.2 % 16 = 0)) ∧
    sequentialSize Struct__InitCB.fields = 32 ∧
    sequentialSize Struct__LossCB.fields = 92 ∧
    sequentialSize Struct__SwapCB.fields = 52 ∧
    sequentialLayout Struct__InitCB.fields 0 = registerPackedLayout Struct__InitCB.fields 0 ∧
    sequentialLayout Struct__LossCB.fields 0 = registerPackedLayout Struct__LossCB.fields 0 ∧
    sequentialLayout Struct__SwapCB.fields 0 = registerPackedLayout Struct__SwapCB.fields 0 := by
  refine ⟨?_, ?_, ?_, ?_, ?_, ?_, ?_, ?_, ?_⟩ <;> decide

/-- C8, at a concrete input: the `key` field of the Loss block sits at offset 16 and fills
the second register. -/
theorem parameter_blocks_register_packed_witness :
    ((⟨"key", 4⟩, 16) : FieldDecl × Nat) ∈ sequentialLayout Struct__LossCB.fields 0 ∧
    16 / 16 = (16 + FieldDecl.size ⟨"key", 4⟩ - 1) / 16 ∧ 16 % 16 = 0 :=
  have h := parameter_blocks_register_packed.2.1 (⟨"key", 4⟩, 16) (by decide)
  ⟨by decide, h.1, (h.2 rfl).2⟩

/-! ## Theorems: Swap -/

/-- C1: permutation invariant. For every Value Grid `g` (in particular the one Initialization
produced), every Swap shader and every sequence of Swap parameter blocks, one pass per block,
the multiset of cell values after the passes is the multiset of cell values of `g`, and the
resulting grid is `g` read through a permutation of the cells: values are only exchanged
between cells, none is created, duplicated or destroyed. -/
theorem Swap_passes_preserve_cell_values {e : GridExtent} {α : Type} (sh : SwapShader e α)
    (blocks : List Struct__SwapCB) (g : ValueGrid e α) :
    ValueGrid.cellValues (runSwapPasses sh blocks g) = ValueGrid.cellValues g ∧
    ∃ σ : Equiv.Perm (Cell e), ∀ c : Cell e, runSwapPasses sh blocks g c = g (σ c) := by
  obtain ⟨σ, hσ⟩ := runSwapPasses_rearranges sh blocks g
  refine ⟨?_, σ, fun c => ?_⟩
  · rw [hσ]
    exact ValueGrid.cellValues_comp_perm g σ
  · rw [hσ]
    rfl

/-- C1, at a concrete input: a 3 x 1 x 1 grid holding 10, 20 and 30, every cell proposing,
the candidates being 0 -> 1, 1 -> 0 and 2 -> 1, no suppression, every exchange accepted, one
pass with the default Swap block. Cell 0 swaps with cell 1; the proposals of cells 1 and 2
are dropped because cell 1 already took part in a swap; the grid holds 20, 10 and 30. -/
theorem Swap_passes_preserve_cell_values_witness :
    List.ofFn (runSwapPasses
      (SwapShader.mk (fun _ _ => true) (fun _ c => if c.val = 1 then ⟨0, by decide⟩ else ⟨1, by decide⟩)
        (fun _ _ _ => false) (fun _ _ _ _ => true) : SwapShader ⟨3, 1, 1⟩ Nat)
      [constantBuffer__SwapCB_cpu] (fun c => 10 * (c.val + 1))) = [20, 10, 30] ∧
    ValueGrid.cellValues (runSwapPasses
      (SwapShader.mk (fun _ _ => true) (fun _ c => if c.val = 1 then ⟨0, by decide⟩ else ⟨1, by decide⟩)
        (fun _ _ _ => false) (fun _ _ _ _ => true) : SwapShader ⟨3, 1, 1⟩ Nat)
      [constantBuffer__SwapCB_cpu] (fun c => 10 * (c.val + 1))) =
      ValueGrid.cellValues (fun c : Cell ⟨3, 1, 1⟩ => 10 * (c.val + 1)) :=
  ⟨by decide,
    (Swap_passes_preserve_cell_values
      (SwapShader.mk (fun _ _ => true) (fun _ c => if c.val = 1 then ⟨0, by decide⟩ else ⟨1, by decide⟩)
        (fun _ _ _ => false) (fun _ _ _ _ => true) : SwapShader ⟨3, 1, 1⟩ Nat)
      [constantBuffer__SwapCB_cpu] (fun c => 10 * (c.val + 1))).1⟩

end fastnoise
